import Mathlib

/-!
Verification of the GenAI-Credit-Insights repository against its
natural-language specification.

Shallow embedding conventions:
- timestamps are modeled as whole minutes since an epoch (a natural number);
  one day is 1440 minutes, 30 days are 43200 minutes, 90 days are 129600 minutes;
- monetary amounts and probabilities are modeled as rationals (the Python code
  computes with IEEE doubles; every concrete input used below is chosen far
  from representation or rounding boundaries so the rational and the double
  computation agree);
- the two process-global pseudo-random streams (module random and module
  numpy.random) are modeled as explicit state: a stream function together with
  a consumption counter for each of the two modules; each primitive reads the
  value at the current counter and advances it, deriving its result exactly the
  way the corresponding library primitive maps a uniform [0,1) draw to its
  output range;
- fallible code is modeled with Option / Except; in particular a floating-point
  NaN produced by averaging an empty window is modeled as Option.none.
-/

/-!
The library marks the rational arithmetic operations irreducible, which only
affects elaborator-side definitional unfolding; restoring the default
reducibility lets concrete witnesses below be checked by decide through the
kernel, which always could unfold these definitions anyway.
-/
set_option allowUnsafeReducibility true in
attribute [semireducible] Rat.add Rat.mul Rat.sub Rat.div Rat.neg Rat.inv Rat.ofScientific

/-- Python round to 1 or 2 decimal digits, modeled as round-half-up on
rationals. Python itself rounds the nearest double, which only differs at
exact .5 ties of the decimal expansion; all concrete inputs below are chosen
away from such ties. -/
def roundHalfInt (q : ℚ) : ℤ := ⌊q + 1 / 2⌋

/-- Rounding to one decimal digit, as in Python round(x, 1). -/
def roundTo1 (q : ℚ) : ℚ := (roundHalfInt (q * 10) : ℚ) / 10

/-- Rounding to two decimal digits, as in Python round(x, 2). -/
def roundTo2 (q : ℚ) : ℚ := (roundHalfInt (q * 100) : ℚ) / 100

/-- Hour-of-day of a timestamp given in minutes since the epoch, as
datetime.hour reads it. -/
def hourOf (t : ℕ) : ℕ := t / 60 % 24

/-- Zero padding to five digits, as the Python format specifier 05d. -/
def pad5 (n : ℕ) : String :=
  let s := toString n
  String.mk (List.replicate (5 - s.length) '0') ++ s

/-- One transaction row, with the exact columns built in
CreditCardDataGenerator.generate_transactions. -/
structure Tx where
  customer_id : String
  transaction_id : String
  date : ℕ
  category : String
  merchant : String
  amount : ℚ
  is_foreign : Bool
  is_online : Bool
deriving DecidableEq, Repr

/-- One customer profile, as returned by
CreditCardDataGenerator.generate_customer_profile. -/
structure CustomerProfile where
  customer_id : String
  credit_limit : ℚ
  segment : String
  member_since : ℕ
  annual_fee : ℚ
deriving DecidableEq, Repr

/-- The metric fields returned by CreditCardDataGenerator.calculate_risk_metrics.
The avg_transaction field is an Option: none models the floating-point NaN that
mean() of an empty window yields. -/
structure RiskMetrics where
  risk_score : ℚ
  risk_category : String
  utilization : ℚ
  total_spend_3m : ℚ
  foreign_txn_count : ℕ
  large_txn_count : ℕ
  avg_transaction : Option ℚ
deriving DecidableEq, Repr

/-- Merged customer record, the Python dict union of profile and risk metrics
built in generate_complete_dataset. -/
structure CustomerRow where
  customer_id : String
  credit_limit : ℚ
  segment : String
  member_since : ℕ
  annual_fee : ℚ
  risk_score : ℚ
  risk_category : String
  utilization : ℚ
  total_spend_3m : ℚ
  foreign_txn_count : ℕ
  large_txn_count : ℕ
  avg_transaction : Option ℚ
deriving DecidableEq, Repr

/-- The maximum transaction date, as the pandas max() over the date column.
On an empty table pandas yields NaT; callers below special-case the empty
table exactly where the code-visible behavior depends on it. -/
def recentDate (txs : List Tx) : ℕ := (txs.map (fun t => t.date)).foldr max 0

/-- The trailing 90-day window selected in calculate_risk_metrics:
transactions with date at least recent_date minus 90 days. A NaT maximum on
the empty table makes the pandas comparison everywhere false, hence the empty
window. -/
def last3m (txs : List Tx) : List Tx :=
  match txs with
  | [] => []
  | _ => txs.filter (fun t => decide (recentDate txs - 129600 ≤ t.date))

/-- Sum of amounts over the trailing window (total_spend in the source). -/
def totalSpend3m (txs : List Tx) : ℚ := ((last3m txs).map (fun t => t.amount)).sum

/-- Utilization before rounding, exactly the source expression
(total_spend / (credit_limit * 3)) * 100. -/
def utilizationRaw (txs : List Tx) (credit_limit : ℚ) : ℚ :=
  totalSpend3m txs / (credit_limit * 3) * 100

/-- Count of foreign transactions in the window (sum of the boolean column). -/
def foreignCount3m (txs : List Tx) : ℕ :=
  ((last3m txs).filter (fun t => t.is_foreign)).length

/-- Count of window transactions with amount strictly above 1000. -/
def largeCount3m (txs : List Tx) : ℕ :=
  ((last3m txs).filter (fun t => decide (1000 < t.amount))).length

/-- Count of window transactions whose hour is at least 23 or at most 5. -/
def lateNightCount3m (txs : List Tx) : ℕ :=
  ((last3m txs).filter (fun t => decide (23 ≤ hourOf t.date ∨ hourOf t.date ≤ 5))).length

/-- The risk score accumulation of calculate_risk_metrics before storage:
starts at 0, adds the capped utilization impact, then the weighted counts, and
finally clamps at 100. -/
def riskScoreRaw (txs : List Tx) (credit_limit : ℚ) : ℚ :=
  let u := utilizationRaw txs credit_limit
  let s0 : ℚ := 0
  let s1 := s0 + min (u * (3 / 10)) 30
  let s2 := s1 + (foreignCount3m txs : ℚ) * 5
  let s3 := s2 + (largeCount3m txs : ℚ) * 3
  let s4 := s3 + (lateNightCount3m txs : ℚ) * 2
  min s4 100

/-- The risk category thresholds of calculate_risk_metrics, applied to the
clamped (unrounded) score. -/
def riskCategoryOf (score : ℚ) : String :=
  if score < 30 then "Low" else if score < 60 then "Medium" else "High"

/-- Embedding of CreditCardDataGenerator.calculate_risk_metrics. The stored
score and utilization are the raw values rounded to one decimal digit; the
category is derived from the unrounded clamped score; avg_transaction is the
window mean, NaN (none) when the window is empty. -/
def calculate_risk_metrics (txs : List Tx) (p : CustomerProfile) : RiskMetrics :=
  let score := riskScoreRaw txs p.credit_limit
  { risk_score := roundTo1 score
    risk_category := riskCategoryOf score
    utilization := roundTo1 (utilizationRaw txs p.credit_limit)
    total_spend_3m := roundTo2 (totalSpend3m txs)
    foreign_txn_count := foreignCount3m txs
    large_txn_count := largeCount3m txs
    avg_transaction :=
      if (last3m txs).length = 0 then none
      else some (roundTo2 (totalSpend3m txs / ((last3m txs).length : ℚ))) }

/-- Process-global pseudo-random state: the module random stream and the
numpy.random stream, each an infinite sequence of [0,1) draws with a
consumption counter. -/
structure GenState where
  pyStream : ℕ → ℚ
  pyIdx : ℕ
  npStream : ℕ → ℚ
  npIdx : ℕ

/-- A state is valid when every draw of both streams lies in [0,1), the
contract every library generator satisfies. -/
def ValidState (s : GenState) : Prop :=
  (∀ n, 0 ≤ s.pyStream n ∧ s.pyStream n < 1) ∧
  (∀ n, 0 ≤ s.npStream n ∧ s.npStream n < 1)

/-- random.random(): next draw of the python stream. -/
def pyRandom (s : GenState) : ℚ × GenState :=
  (s.pyStream s.pyIdx, { s with pyIdx := s.pyIdx + 1 })

/-- random.randint(a, b): both endpoints inclusive. -/
def pyRandint (a b : ℕ) (s : GenState) : ℕ × GenState :=
  let (u, s1) := pyRandom s
  (a + (⌊u * ((b : ℚ) + 1 - (a : ℚ))⌋).toNat, s1)

/-- random.choice(l): uniform element of a nonempty list. -/
def pyChoice {α : Type} (l : List α) (d : α) (s : GenState) : α × GenState :=
  let (u, s1) := pyRandom s
  (l.getD (⌊u * (l.length : ℚ)⌋).toNat d, s1)

/-- numpy random draw: next draw of the numpy stream. -/
def npRandom (s : GenState) : ℚ × GenState :=
  (s.npStream s.npIdx, { s with npIdx := s.npIdx + 1 })

/-- np.random.uniform(lo, hi): half-open range, high end excluded. -/
def npUniform (lo hi : ℚ) (s : GenState) : ℚ × GenState :=
  let (u, s1) := npRandom s
  (lo + u * (hi - lo), s1)

/-- np.random.randint(a, b): high end excluded. -/
def npRandint (a b : ℕ) (s : GenState) : ℕ × GenState :=
  let (u, s1) := npRandom s
  (a + (⌊u * ((b : ℚ) - (a : ℚ))⌋).toNat, s1)

/-- Walk of the cumulative weights: picks the first entry whose cumulative
weight exceeds the draw. -/
def pickWeighted {α : Type} (u : ℚ) (d : α) : List (α × ℚ) → ℚ → α
  | [], _ => d
  | (x, w) :: rest, acc => if u < acc + w then x else pickWeighted u d rest (acc + w)

/-- np.random.choice(values, p=weights). -/
def npChoiceWeighted {α : Type} (l : List (α × ℚ)) (d : α) (s : GenState) : α × GenState :=
  let (u, s1) := npRandom s
  (pickWeighted u d l 0, s1)

/-- The MERCHANT_CATEGORIES class constant, in dict insertion order. -/
def MERCHANT_CATEGORIES : List (String × List String) :=
  [("Dining", ["Fine Dining Restaurant", "Coffee Shop", "Fast Food", "Bar & Lounge"]),
   ("Travel", ["Airline", "Hotel", "Car Rental", "Travel Agency"]),
   ("Shopping", ["Department Store", "Online Retailer", "Boutique", "Electronics Store"]),
   ("Groceries", ["Supermarket", "Organic Market", "Convenience Store"]),
   ("Entertainment", ["Streaming Service", "Concert Venue", "Movie Theater", "Gaming"]),
   ("Healthcare", ["Pharmacy", "Medical Clinic", "Gym Membership"]),
   ("Utilities", ["Electric Company", "Internet Provider", "Phone Service"]),
   ("Gas", ["Gas Station", "EV Charging Station"]),
   ("Other", ["Insurance", "Subscription Service", "Professional Services"])]

/-- list(MERCHANT_CATEGORIES.keys()). -/
def categoryKeys : List String := MERCHANT_CATEGORIES.map Prod.fst

/-- Merchant vocabulary of one category. -/
def merchantsOf (c : String) : List String :=
  ((MERCHANT_CATEGORIES.find? (fun kv => kv.1 = c)).map Prod.snd).getD []

/-- Embedding of generate_customer_profile: credit limit and segment are
weighted numpy choices, tenure a numpy randint in [365, 3650) days before the
generation instant, and the fee a pure function of the segment. -/
def generate_customer_profile (now : ℕ) (cid : String) (s : GenState) :
    CustomerProfile × GenState :=
  let (cl, s1) := npChoiceWeighted
    [((5000 : ℚ), 0.2), (10000, 0.3), (15000, 0.25), (25000, 0.15), (50000, 0.1)] 5000 s
  let (seg, s2) := npChoiceWeighted
    [("Premium", (0.2 : ℚ)), ("Standard", 0.5), ("Basic", 0.3)] "Premium" s1
  let (d, s3) := npRandint 365 3650 s2
  ({ customer_id := cid
     credit_limit := cl
     segment := seg
     member_since := now - d * 1440
     annual_fee := if seg = "Basic" then 0 else if seg = "Standard" then 95 else 550 }, s3)

/-- The three segment-conditioned tunables computed at the top of
generate_transactions: average monthly spend target, travel probability,
dining probability. -/
def segmentParams (credit_limit : ℚ) (segment : String) : ℚ × ℚ × ℚ :=
  if segment = "Premium" then (credit_limit * 0.4, 0.3, 0.25)
  else if segment = "Standard" then (credit_limit * 0.25, 0.15, 0.15)
  else (credit_limit * 0.15, 0.05, 0.10)

/-- The category tie-break of the inner loop: Travel below the travel
probability, Dining below the summed probabilities, otherwise a uniform
choice over all nine dictionary keys (so Travel and Dining can be drawn again
by the fallback). -/
def categoryDraw (rand_val travel_prob dining_prob : ℚ) (s : GenState) : String × GenState :=
  if rand_val < travel_prob then ("Travel", s)
  else if rand_val < travel_prob + dining_prob then ("Dining", s)
  else pyChoice categoryKeys "Dining" s

/-- The amount branch of the inner loop: a uniform draw from the range fixed
for the category. -/
def amountDraw (category : String) (s : GenState) : ℚ × GenState :=
  if category = "Travel" then npUniform 200 2000 s
  else if category = "Dining" then npUniform 15 300 s
  else if category = "Shopping" then npUniform 20 800 s
  else if category = "Groceries" then npUniform 30 200 s
  else npUniform 10 300 s

/-- One loop body of the inner transaction loop of generate_transactions:
category by the travel/dining tie-break with uniform fallback over all nine
keys, merchant from the category vocabulary, amount from the fixed
per-category range rounded to cents, a date inside the month, and the two
Bernoulli flags. The txIdx argument is the running length of the accumulated
transaction list, used for the zero-padded transaction id. -/
def genOneTx (cid : String) (travel_prob dining_prob : ℚ) (monthStart : ℕ)
    (txIdx : ℕ) (s : GenState) : Tx × GenState :=
  let r0 := pyRandom s
  let rc := categoryDraw r0.1 travel_prob dining_prob r0.2
  let rm := pyChoice (merchantsOf rc.1) "" rc.2
  let ra := amountDraw rc.1 rm.2
  let rd := pyRandint 0 29 ra.2
  let rh := pyRandint 0 23 rd.2
  let rmi := pyRandint 0 59 rh.2
  let rf := pyRandom rmi.2
  let ro := pyRandom rf.2
  ({ customer_id := cid
     transaction_id := "TXN_" ++ cid ++ "_" ++ pad5 txIdx
     date := monthStart + rd.1 * 1440 + rh.1 * 60 + rmi.1
     category := rc.1
     merchant := rm.1
     amount := roundTo2 ra.1
     is_foreign := decide (rf.1 < 0.05)
     is_online := decide (ro.1 < 0.4) }, ro.2)

/-- The inner per-month loop: runs the drawn transaction count times,
appending to the running list. -/
def genMonthTxs (cid : String) (travel_prob dining_prob : ℚ) (monthStart : ℕ) :
    ℕ → List Tx → GenState → List Tx × GenState
  | 0, acc, s => (acc, s)
  | k + 1, acc, s =>
    let r := genOneTx cid travel_prob dining_prob monthStart acc.length s
    genMonthTxs cid travel_prob dining_prob monthStart k (acc ++ [r.1]) r.2

/-- The outer month loop of generate_transactions over the month offsets:
anchors the month at now minus 30 days times the months remaining, draws the
transaction count, draws the (otherwise unused) monthly spend target, and runs
the inner loop. -/
def genMonths (now numMonths : ℕ) (cid : String) (avgMonthlySpend travel_prob dining_prob : ℚ) :
    List ℕ → List Tx → GenState → List Tx × GenState
  | [], acc, s => (acc, s)
  | m :: rest, acc, s =>
    let monthStart := now - 43200 * (numMonths - m)
    let rn := npRandint 10 40 s
    let rmu := npUniform 0.7 1.3 rn.2
    let monthlySpend := avgMonthlySpend * rmu.1
    let r1 := genMonthTxs cid travel_prob dining_prob monthStart rn.1 acc rmu.2
    genMonths now numMonths cid avgMonthlySpend travel_prob dining_prob rest r1.1 r1.2

/-- The loop part of generate_transactions, parameterized over the three
segment tunables exactly as the source locals after the segment dispatch. -/
def txLoop (now : ℕ) (cid : String) (avgMonthlySpend travel_prob dining_prob : ℚ)
    (numMonths : ℕ) (s : GenState) : List Tx × GenState :=
  genMonths now numMonths cid avgMonthlySpend travel_prob dining_prob
    (List.range numMonths) [] s

/-- Embedding of generate_transactions: derive the segment tunables, then run
the month loop. -/
def generate_transactions (now : ℕ) (p : CustomerProfile) (numMonths : ℕ)
    (s : GenState) : List Tx × GenState :=
  let params := segmentParams p.credit_limit p.segment
  txLoop now p.customer_id params.1 params.2.1 params.2.2 numMonths s

/-- Dict union of profile and risk metrics, as the {**profile, **risk_metrics}
merge in generate_complete_dataset. -/
def mergeRow (p : CustomerProfile) (m : RiskMetrics) : CustomerRow :=
  { customer_id := p.customer_id
    credit_limit := p.credit_limit
    segment := p.segment
    member_since := p.member_since
    annual_fee := p.annual_fee
    risk_score := m.risk_score
    risk_category := m.risk_category
    utilization := m.utilization
    total_spend_3m := m.total_spend_3m
    foreign_txn_count := m.foreign_txn_count
    large_txn_count := m.large_txn_count
    avg_transaction := m.avg_transaction }

/-- The per-customer loop of generate_complete_dataset over customer indices. -/
def genDatasetLoop (now : ℕ) :
    List ℕ → List CustomerRow → List Tx → GenState →
    (List CustomerRow × List Tx) × GenState
  | [], accC, accT, s => ((accC, accT), s)
  | i :: rest, accC, accT, s =>
    let cid := "CUST_" ++ pad5 (i + 1)
    let rp := generate_customer_profile now cid s
    let rt := generate_transactions now rp.1 6 rp.2
    let m := calculate_risk_metrics rt.1 rp.1
    genDatasetLoop now rest (accC ++ [mergeRow rp.1 m]) (accT ++ rt.1) rt.2

/-- Embedding of generate_complete_dataset: customer table and concatenated
transaction table for the requested customer count. -/
def generate_complete_dataset (now numCustomers : ℕ) (s : GenState) :
    List CustomerRow × List Tx :=
  (genDatasetLoop now (List.range numCustomers) [] [] s).1

/-- Library-collaborator model of the seeded pseudo-random generators: the
Mersenne Twister streams behind random.seed and np.random.seed are opaque
library code, modeled here by an explicit deterministic seed-indexed stream
with values in [0,1). No property below depends on which values the stream
takes, only on its determinism and its range. -/
def lcgNext (x : ℕ) : ℕ := (1103515245 * x + 12345) % 2147483648

/-- Iterated stand-in generator. -/
def lcgIter (x : ℕ) : ℕ → ℕ
  | 0 => lcgNext x
  | n + 1 => lcgNext (lcgIter x n)

/-- Seed-indexed stream of [0,1) rationals. -/
def seedStream (salt seed n : ℕ) : ℚ := ((lcgIter (2 * seed + salt) n) % 4096 : ℕ) / 4096

/-- Effect of CreditCardDataGenerator.__init__(seed): random.seed(seed) and
np.random.seed(seed) overwrite both process-global streams, so the resulting
state is a function of the seed alone. -/
def initState (seed : ℕ) : GenState :=
  { pyStream := seedStream 1 seed, pyIdx := 0, npStream := seedStream 3 seed, npIdx := 0 }

/-- One full run: construct a fresh generator over whatever process-global
random state existed before (the prior argument, discarded by the re-seeding
in __init__), then generate the complete dataset at the given wall-clock
instant. -/
def datasetRun (prior : GenState) (seed now numCustomers : ℕ) :
    List CustomerRow × List Tx :=
  let _ := prior
  generate_complete_dataset now numCustomers (initState seed)

/-- Lowercasing as str.lower() on ASCII text. -/
def lowerStr (s : String) : String := String.mk (s.data.map Char.toLower)

/-- Character-list prefix test. -/
def charsPref : List Char → List Char → Bool
  | [], _ => true
  | _ :: _, [] => false
  | a :: as, b :: bs => a = b && charsPref as bs

/-- Character-list containment test, the python substring operator in. -/
def charsSub (p : List Char) : List Char → Bool
  | [] => p.isEmpty
  | b :: bs => charsPref p (b :: bs) || charsSub p bs

/-- Substring containment, python w in q. -/
def substrOf (w q : String) : Bool := charsSub w.data q.data

/-- Keyword containment over a list, python any(word in q for word in ws). -/
def matchesAny (ws : List String) (qLower : String) : Bool :=
  ws.any (fun w => substrOf w qLower)

/-- Newline join, python backslash-n join of a line list. -/
def joinLines : List String → String
  | [] => ""
  | [a] => a
  | a :: b :: rest => a ++ "\n" ++ joinLines (b :: rest)

/-- Civil calendar from days since 1970-01-01 (the standard era-based
algorithm), yielding year, month, day. -/
def civilFromDays (z0 : ℕ) : ℕ × ℕ × ℕ :=
  let z := z0 + 719468
  let era := z / 146097
  let doe := z % 146097
  let yoe := (doe - doe / 1460 + doe / 36524 - doe / 146096) / 365
  let y := yoe + era * 400
  let doy := doe - (365 * yoe + yoe / 4 - yoe / 100)
  let mp := (5 * doy + 2) / 153
  let d := doy - (153 * mp + 2) / 5 + 1
  let m := if mp < 10 then mp + 3 else mp - 9
  (if mp < 10 then y else y + 1, m, d)

/-- Two-digit zero padding. -/
def pad2 (n : ℕ) : String := if n < 10 then "0" ++ toString n else toString n

/-- Four-digit zero padding for years. -/
def pad4 (n : ℕ) : String :=
  if n < 10 then "000" ++ toString n
  else if n < 100 then "00" ++ toString n
  else if n < 1000 then "0" ++ toString n
  else toString n

/-- strftime with format %Y-%m-%d. -/
def strftimeYmd (t : ℕ) : String :=
  let c := civilFromDays (t / 1440)
  pad4 c.1 ++ "-" ++ pad2 c.2.1 ++ "-" ++ pad2 c.2.2

/-- Calendar month period of a timestamp, as pandas to_period with rule M. -/
def monthPeriodOf (t : ℕ) : ℕ × ℕ :=
  let c := civilFromDays (t / 1440)
  (c.1, c.2.1)

/-- String form of a month period, as pandas renders it. -/
def monthPeriodStr (p : ℕ × ℕ) : String := pad4 p.1 ++ "-" ++ pad2 p.2

/-- Calendar quarter period of a timestamp, as pandas to_period with rule Q. -/
def quarterPeriodOf (t : ℕ) : ℕ × ℕ :=
  let c := civilFromDays (t / 1440)
  (c.1, (c.2.1 - 1) / 3 + 1)

/-- Comma insertion every three digits from the right, for the python comma
format flag. -/
def group3 : List Char → List Char
  | a :: b :: c :: d :: rest => a :: b :: c :: ',' :: group3 (d :: rest)
  | l => l

/-- Thousands-grouped decimal rendering of a natural number. -/
def commaNat (n : ℕ) : String := String.mk ((group3 (toString n).data.reverse).reverse)

/-- Left zero padding of a fraction part to the requested digit count. -/
def padFrac (fr p : ℕ) : String :=
  let s := toString fr
  String.mk (List.replicate (p - s.length) '0') ++ s

/-- Sign, integer part and fraction part of a rational rendered to p decimal
digits (round half up; see the remark on roundHalfInt). -/
def fmtParts (q : ℚ) (p : ℕ) : Bool × ℕ × ℕ :=
  let n := roundHalfInt (q * ((10 : ℚ) ^ p))
  (decide (n < 0), n.natAbs / 10 ^ p, n.natAbs % 10 ^ p)

/-- Python format .2f. -/
def fmtF2 (q : ℚ) : String :=
  let parts := fmtParts q 2
  (if parts.1 then "-" else "") ++ toString parts.2.1 ++ "." ++ padFrac parts.2.2 2

/-- Python format ,.2f with thousands grouping. -/
def fmtComma2 (q : ℚ) : String :=
  let parts := fmtParts q 2
  (if parts.1 then "-" else "") ++ commaNat parts.2.1 ++ "." ++ padFrac parts.2.2 2

/-- Python format .1f. -/
def fmtF1 (q : ℚ) : String :=
  let parts := fmtParts q 1
  (if parts.1 then "-" else "") ++ toString parts.2.1 ++ "." ++ padFrac parts.2.2 1

/-- Python format +.1f with an explicit sign. -/
def fmtSigned1 (q : ℚ) : String :=
  let parts := fmtParts q 1
  (if parts.1 then "-" else "+") ++ toString parts.2.1 ++ "." ++ padFrac parts.2.2 1

/-- Python format .2f applied to a possibly-NaN mean. -/
def fmtF2Opt : Option ℚ → String
  | none => "nan"
  | some q => fmtF2 q

/-- Character-code lexicographic order on strings, used to model the sorted
group keys pandas groupby produces. -/
def chLe : List Char → List Char → Bool
  | [], _ => true
  | _ :: _, [] => false
  | a :: as, b :: bs =>
    if a.toNat < b.toNat then true
    else if b.toNat < a.toNat then false
    else chLe as bs

/-- String order from character order. -/
def strLe (a b : String) : Bool := chLe a.data b.data

/-- Insertion into an ascending sorted string list, skipping duplicates. -/
def insertSortedStr (x : String) : List String → List String
  | [] => [x]
  | y :: ys =>
    if x = y then y :: ys
    else if strLe x y then x :: y :: ys
    else y :: insertSortedStr x ys

/-- Distinct keys in ascending order, as pandas groupby sorts group keys. -/
def sortedKeys (l : List String) : List String := l.foldr insertSortedStr []

/-- Sum of a rational list. -/
def qsum (l : List ℚ) : ℚ := l.sum

/-- Mean of a rational list; none models the NaN of an empty mean. -/
def qmeanOpt (l : List ℚ) : Option ℚ :=
  if l.length = 0 then none else some (l.sum / (l.length : ℚ))

/-- The trailing window of the insight handler, recomputed from the max date
with the given day count, as each explanation function derives it fresh. -/
def windowFrom (txs : List Tx) (daysBack : ℕ) : List Tx :=
  match txs with
  | [] => []
  | _ => txs.filter (fun t => decide (recentDate txs - daysBack * 1440 ≤ t.date))

/-- The prior 90-day window: at least 180 days back and strictly before 90
days back of the max date. -/
def prevWindow90 (txs : List Tx) : List Tx :=
  match txs with
  | [] => []
  | _ => txs.filter (fun t =>
      decide (recentDate txs - 259200 ≤ t.date ∧ t.date < recentDate txs - 129600))

/-- Per-category amount sums of a window with group keys ascending, the
groupby sum of the handler. -/
def catSpendPairs (txs : List Tx) : List (String × ℚ) :=
  (sortedKeys (txs.map (fun t => t.category))).map
    (fun c => (c, qsum ((txs.filter (fun t => t.category = c)).map (fun t => t.amount))))

/-- Stable insertion by descending value, for sort_values descending. -/
def insertByDesc (x : String × ℚ) : List (String × ℚ) → List (String × ℚ)
  | [] => [x]
  | y :: ys => if y.2 < x.2 then x :: y :: ys else y :: insertByDesc x ys

/-- Category spend sorted by descending amount. -/
def catSpendSorted (txs : List Tx) : List (String × ℚ) :=
  (catSpendPairs txs).foldr insertByDesc []

/-- Embedding of GenAIInsightsHandler.generate_customer_context: the
structured context text built from profile, risk snapshot, fresh 90-day
aggregates, top three categories and the trend delta. The risk score is a
stored one-decimal value, rendered as python str() renders such a float. -/
def generate_customer_context (c : CustomerRow) (txs : List Tx) : String :=
  let last_30d := windowFrom txs 30
  let _ := last_30d
  let last_90d := windowFrom txs 90
  let prev_90d := prevWindow90 txs
  let top_categories := (catSpendSorted last_90d).take 3
  let current_spend := qsum (last_90d.map (fun t => t.amount))
  let previous_spend := qsum (prev_90d.map (fun t => t.amount))
  let spend_change : ℚ :=
    if 0 < previous_spend then (current_spend - previous_spend) / previous_spend * 100 else 0
  "\nCustomer Profile:\n- Customer ID: " ++ c.customer_id ++
  "\n- Segment: " ++ c.segment ++
  "\n- Credit Limit: $" ++ fmtComma2 c.credit_limit ++
  "\n- Member Since: " ++ strftimeYmd c.member_since ++
  "\n\nRisk Assessment:\n- Risk Score: " ++ fmtF1 c.risk_score ++ "/100" ++
  "\n- Risk Category: " ++ c.risk_category ++
  "\n- Utilization: " ++ fmtF1 c.utilization ++ "%" ++
  "\n\nRecent Activity (Last 90 Days):\n- Total Spend: $" ++ fmtComma2 current_spend ++
  "\n- Transaction Count: " ++ toString last_90d.length ++
  "\n- Average Transaction: $" ++ fmtF2Opt (qmeanOpt (last_90d.map (fun t => t.amount))) ++
  "\n- Spend Change vs Previous 90 Days: " ++ fmtSigned1 spend_change ++ "%" ++
  "\n\nTop Spending Categories:\n" ++
  joinLines (top_categories.map (fun p => "- " ++ p.1 ++ ": $" ++ fmtComma2 p.2)) ++
  "\n\nBehavioral Flags:\n- Foreign Transactions (90d): " ++
  toString (last_90d.filter (fun t => t.is_foreign)).length ++
  "\n- Large Transactions >$1000 (90d): " ++
  toString (last_90d.filter (fun t => decide (1000 < t.amount))).length ++
  "\n- Online Transactions (90d): " ++
  toString (last_90d.filter (fun t => t.is_online)).length ++ "\n"

/-- Risk-intent branch of the rule engine. -/
def explainRisk (c : CustomerRow) (txs : List Tx) : String :=
  let last_90d := windowFrom txs 90
  let header := "**Risk Analysis: " ++ c.risk_category ++ " Risk (" ++ fmtF1 c.risk_score ++ "/100)**\n"
  let utilLine :=
    if 80 < c.utilization then
      "**High Utilization Alert**: Credit utilization is at " ++ fmtF1 c.utilization ++
      "%, significantly above the recommended 30% threshold. This is the primary driver of the elevated risk score."
    else if 50 < c.utilization then
      "**Moderate Utilization**: Current utilization of " ++ fmtF1 c.utilization ++
      "% is elevated. While manageable, this contributes to the risk assessment."
    else
      "**Healthy Utilization**: Credit utilization of " ++ fmtF1 c.utilization ++ "% is well-managed."
  let foreign_count := (last_90d.filter (fun t => t.is_foreign)).length
  let foreignLines :=
    if 5 < foreign_count then
      ["\n**International Activity**: " ++ toString foreign_count ++
       " foreign transactions in the last 90 days. While this may indicate travel patterns, it adds complexity to fraud detection algorithms."]
    else []
  let large_txns := (last_90d.filter (fun t => decide (1000 < t.amount))).length
  let largeLines :=
    if 3 < large_txns then
      ["\n**Large Transaction Pattern**: " ++ toString large_txns ++
       " transactions over $1,000. High-value purchases increase exposure and slightly elevate risk metrics."]
    else []
  let prev_90d := prevWindow90 txs
  let current_spend := qsum (last_90d.map (fun t => t.amount))
  let previous_spend := qsum (prev_90d.map (fun t => t.amount))
  let velocityLines :=
    if 0 < previous_spend then
      let change := (current_spend - previous_spend) / previous_spend * 100
      if 30 < |change| then
        ["\n**Spending Velocity Change**: Spending has " ++
         (if 0 < change then "increased" else "decreased") ++ " by " ++ fmtF1 |change| ++
         "% compared to the previous quarter. Significant changes in spending patterns can trigger risk model adjustments."]
      else []
    else []
  let recommendation :=
    "\n**Recommendation**: " ++
    (if 60 < c.risk_score then "Consider credit limit review or payment plan options."
     else if 30 < c.risk_score then "Monitor for continued pattern stability."
     else "Customer exhibits low-risk behavior profile.")
  joinLines ([header, utilLine] ++ foreignLines ++ largeLines ++ velocityLines ++ [recommendation])

/-- Numbered top-category lines of the spending branch, python enumerate
starting at one. -/
def spendingCatLines (total_spend : ℚ) : ℕ → List (String × ℚ) → List String
  | _, [] => []
  | i, p :: rest =>
    (toString i ++ ". **" ++ p.1 ++ "**: $" ++ fmtComma2 p.2 ++ " (" ++
     fmtF1 (p.2 / total_spend * 100) ++ "% of total)") :: spendingCatLines total_spend (i + 1) rest

/-- Spending-intent branch of the rule engine. -/
def explainSpending (c : CustomerRow) (txs : List Tx) : String :=
  let last_90d := windowFrom txs 90
  let total_spend := qsum (last_90d.map (fun t => t.amount))
  let avg_txn := qmeanOpt (last_90d.map (fun t => t.amount))
  let txn_count := last_90d.length
  let header := "**Spending Analysis: $" ++ fmtComma2 total_spend ++ " (Last 90 Days)**\n"
  let countLine := "This customer has made " ++ toString txn_count ++
    " transactions with an average value of $" ++ fmtF2Opt avg_txn ++ ".\n"
  let catLines := spendingCatLines total_spend 1 ((catSpendSorted last_90d).take 3)
  let premiumLines :=
    if c.segment = "Premium" then
      ["\n**Premium Cardholder**: Spending patterns align with premium segment expectations, with emphasis on travel and dining categories typically associated with rewards optimization."]
    else []
  joinLines ([header, countLine, "**Top Spending Categories:**"] ++ catLines ++ premiumLines)

/-- Stable insertion of a category aggregate row by descending total. -/
def insertRowByDesc (x : String × ℚ × ℕ × ℚ) :
    List (String × ℚ × ℕ × ℚ) → List (String × ℚ × ℕ × ℚ)
  | [] => [x]
  | y :: ys => if y.2.1 < x.2.1 then x :: y :: ys else y :: insertRowByDesc x ys

/-- Per-category aggregate rows of the categories branch: total, count and
mean, rounded to two digits as the pandas agg round, sorted by descending
rounded total. -/
def catBreakdownRows (txs : List Tx) : List (String × ℚ × ℕ × ℚ) :=
  let base := (sortedKeys (txs.map (fun t => t.category))).map (fun cat =>
    let g := (txs.filter (fun t => t.category = cat)).map (fun t => t.amount)
    (cat, roundTo2 g.sum, g.length, roundTo2 (if g.length = 0 then 0 else g.sum / (g.length : ℚ))))
  base.foldr insertRowByDesc []

/-- Category-intent branch of the rule engine. -/
def explainCategories (c : CustomerRow) (txs : List Tx) : String :=
  let _ := c
  let last_90d := windowFrom txs 90
  let rows := (catBreakdownRows last_90d).map (fun r =>
    "**" ++ r.1 ++ "**: $" ++ fmtComma2 r.2.1 ++ " across " ++ toString r.2.2.1 ++
    " transactions (avg: $" ++ fmtF2 r.2.2.2 ++ ")")
  joinLines ("**Category Spending Breakdown (Last 90 Days)**\n" :: rows)

/-- Ascending order on month periods. -/
def periodLe (a b : ℕ × ℕ) : Bool :=
  a.1 < b.1 || (a.1 = b.1 && a.2 ≤ b.2)

/-- Insertion into an ascending sorted period list, skipping duplicates. -/
def insertSortedPeriod (x : ℕ × ℕ) : List (ℕ × ℕ) → List (ℕ × ℕ)
  | [] => [x]
  | y :: ys =>
    if x = y then y :: ys
    else if periodLe x y then x :: y :: ys
    else y :: insertSortedPeriod x ys

/-- Monthly totals keyed by calendar month period in ascending key order, the
groupby over to_period M. -/
def monthlyTotals (txs : List Tx) : List ((ℕ × ℕ) × ℚ) :=
  ((txs.map (fun t => monthPeriodOf t.date)).foldr insertSortedPeriod []).map (fun p =>
    (p, qsum ((txs.filter (fun t => monthPeriodOf t.date = p)).map (fun t => t.amount))))

/-- Mean of the amounts of a period-total list slice. -/
def periodMean (l : List ((ℕ × ℕ) × ℚ)) : ℚ :=
  if l.length = 0 then 0 else (l.map (fun p => p.2)).sum / (l.length : ℚ)

/-- Trend-intent branch of the rule engine. -/
def explainTrends (c : CustomerRow) (txs : List Tx) : String :=
  let _ := c
  let monthly := (monthlyTotals txs).drop ((monthlyTotals txs).length - 6)
  let monthLines := monthly.map (fun p =>
    "- " ++ monthPeriodStr p.1 ++ ": $" ++ fmtComma2 p.2)
  let trendLines :=
    if 2 ≤ monthly.length then
      let recent_avg := periodMean (monthly.drop (monthly.length - 2))
      let older_avg := periodMean (monthly.take 2)
      if older_avg * 1.2 < recent_avg then
        ["\n**Trend: Increasing** - Spending has accelerated in recent months."]
      else if recent_avg < older_avg * 0.8 then
        ["\n**Trend: Decreasing** - Spending has declined in recent months."]
      else
        ["\n**Trend: Stable** - Spending patterns remain consistent."]
    else []
  joinLines (["**Behavioral Trends Analysis**\n", "**Monthly Spending Trend:**"] ++
    monthLines ++ trendLines)

/-- Default branch of the rule engine, the general customer summary. -/
def generalSummary (c : CustomerRow) (txs : List Tx) : String :=
  let _ := txs
  "**Customer Summary for " ++ c.customer_id ++ "**\n\n**Profile:**\n- Segment: " ++
  c.segment ++ "\n- Risk Level: " ++ c.risk_category ++ " (" ++ fmtF1 c.risk_score ++
  "/100)\n- Credit Utilization: " ++ fmtF1 c.utilization ++
  "%\n\n**Recent Activity:**\n- 90-Day Spend: $" ++ fmtComma2 c.total_spend_3m ++
  "\n- Average Transaction: $" ++ fmtF2Opt c.avg_transaction ++
  "\n\nThis customer demonstrates " ++
  (if 60 < c.risk_score then "elevated risk factors requiring monitoring"
   else if 30 < c.risk_score then "stable behavior patterns"
   else "low-risk characteristics") ++ ".\n"

/-- The keyword set of the risk intent. -/
def riskKeywords : List String := ["risk", "score", "increased", "rise", "high"]

/-- The keyword set of the spending intent. -/
def spendingKeywords : List String := ["spend", "spending", "purchases", "buying"]

/-- The keyword set of the category intent. -/
def categoryKeywords : List String := ["category", "categories", "what", "where"]

/-- The keyword set of the trend intent. -/
def trendKeywords : List String := ["trend", "pattern", "behavior", "change"]

/-- Embedding of GenAIInsightsHandler.generate_rule_based_insight: the
case-insensitive first-match dispatch over the four keyword sets with the
general summary as default. -/
def generate_rule_based_insight (question : String) (c : CustomerRow) (txs : List Tx) : String :=
  let question_lower := lowerStr question
  if matchesAny riskKeywords question_lower then explainRisk c txs
  else if matchesAny spendingKeywords question_lower then explainSpending c txs
  else if matchesAny categoryKeywords question_lower then explainCategories c txs
  else if matchesAny trendKeywords question_lower then explainTrends c txs
  else generalSummary c txs

/-- The fixed system instruction of the external-model path. -/
def SYSTEM_PROMPT : String :=
  "You are a financial analyst specializing in credit card customer behavior and risk assessment. \nProvide clear, actionable insights based on the customer data provided. Focus on:\n- Identifying patterns and trends\n- Explaining risk factors\n- Suggesting potential actions\n- Using financial and analytical terminology appropriately\n\nKeep responses concise but insightful (2-4 paragraphs)."

/-- The user prompt assembled around question and context. -/
def userPromptOf (question context : String) : String :=
  "Customer Data Context:\n" ++ context ++ "\n\nQuestion: " ++ question ++
  "\n\nProvide a detailed analytical response."

/-- Embedding of GenAIInsightsHandler.query_with_openai. The external text
service is an abstract collaborator returning either a completion or an
error; the source wraps the call in try/except and on any exception returns
the error text below instead of raising. -/
def query_with_openai (service : String → String → Except String String)
    (question context : String) : String :=
  match service SYSTEM_PROMPT (userPromptOf question context) with
  | Except.ok content => content
  | Except.error e =>
    "Error querying OpenAI: " ++ e ++ "\n\nFalling back to rule-based insights..."

/-- Embedding of GenAIInsightsHandler.answer_query: builds the context, then
either delegates to the external path or renders the rule-based insight. The
try/except around query_with_openai in the source can never fire, because
query_with_openai catches the service failure internally and returns a plain
string, so the embedding of the openai branch is exactly its value. -/
def answer_query (use_openai : Bool) (service : String → String → Except String String)
    (question : String) (c : CustomerRow) (txs : List Tx) : String :=
  let context := generate_customer_context c txs
  if use_openai then query_with_openai service question context
  else generate_rule_based_insight question c txs

/-- One quarterly summary row of get_quarterly_comparison. -/
structure QuarterRow where
  quarter : ℕ × ℕ
  total_spend : ℚ
  transaction_count : ℕ
  avg_amount : ℚ
  foreign_count : ℕ
deriving DecidableEq, Repr

/-- Embedding of get_quarterly_comparison. The function first copies its
input table and derives the quarter column on the copy, so the result is
returned next to the untouched caller table: the second component is the
caller-visible transaction table after the call. -/
def get_quarterly_comparison (txs : List Tx) : List QuarterRow × List Tx :=
  let copy := txs.map (fun t => (t, quarterPeriodOf t.date))
  let keys := (copy.map (fun p => p.2)).foldr insertSortedPeriod []
  (keys.map (fun q =>
    let g := (copy.filter (fun p => p.2 = q)).map (fun p => p.1)
    { quarter := q
      total_spend := roundTo2 (qsum (g.map (fun t => t.amount)))
      transaction_count := g.length
      avg_amount := roundTo2 (if g.length = 0 then 0
        else qsum (g.map (fun t => t.amount)) / (g.length : ℚ))
      foreign_count := (g.filter (fun t => t.is_foreign)).length }), txs)

/-- Every member is bounded by the foldr maximum. -/
theorem le_foldr_max (l : List ℕ) (x : ℕ) (hx : x ∈ l) : x ≤ l.foldr max 0 := by
  induction l with
  | nil => cases hx
  | cons a t ih =>
    rcases List.mem_cons.mp hx with h | h
    · subst h; exact le_max_left _ _
    · exact le_trans (ih h) (le_max_right _ _)

/-- The foldr maximum of a nonempty list is attained. -/
theorem foldr_max_mem (l : List ℕ) (h : l ≠ []) : l.foldr max 0 ∈ l := by
  induction l with
  | nil => exact absurd rfl h
  | cons a t ih =>
    cases t with
    | nil =>
      show max a 0 ∈ [a]
      rw [max_eq_left (Nat.zero_le a)]
      exact List.mem_singleton.mpr rfl
    | cons b u =>
      have hfold : (a :: b :: u).foldr max 0 = max a ((b :: u).foldr max 0) := rfl
      rcases max_choice a ((b :: u).foldr max 0) with hm | hm
      · rw [hfold, hm]; exact List.mem_cons_self a _
      · rw [hfold, hm]; exact List.mem_cons_of_mem a (ih (by simp))

/-- Monotonicity of the half-up integer rounding. -/
theorem roundHalfInt_mono {a b : ℚ} (h : a ≤ b) : roundHalfInt a ≤ roundHalfInt b :=
  Int.floor_mono (by linarith)

/-- One-decimal rounding preserves nonnegativity. -/
theorem roundTo1_nonneg {q : ℚ} (h : 0 ≤ q) : 0 ≤ roundTo1 q := by
  unfold roundTo1
  have h0 : (0 : ℤ) ≤ roundHalfInt (q * 10) := by
    unfold roundHalfInt
    exact Int.le_floor.mpr (by push_cast; linarith)
  have h1 : (0 : ℚ) ≤ (roundHalfInt (q * 10) : ℚ) := by exact_mod_cast h0
  linarith

/-- One-decimal rounding preserves the bound 100. -/
theorem roundTo1_le_100 {q : ℚ} (h : q ≤ 100) : roundTo1 q ≤ 100 := by
  unfold roundTo1
  have h0 : roundHalfInt (q * 10) ≤ 1000 := by
    unfold roundHalfInt
    have hle : (⌊q * 10 + 1 / 2⌋ : ℚ) ≤ q * 10 + 1 / 2 := Int.floor_le _
    have h2q : (⌊q * 10 + 1 / 2⌋ : ℚ) < 1001 := lt_of_le_of_lt hle (by linarith)
    have h2 : ⌊q * 10 + 1 / 2⌋ < (1001 : ℤ) := by exact_mod_cast h2q
    omega
  have h1 : (roundHalfInt (q * 10) : ℚ) ≤ 1000 := by exact_mod_cast h0
  linarith

/-- Monotonicity of the two-decimal rounding. -/
theorem roundTo2_mono {a b : ℚ} (h : a ≤ b) : roundTo2 a ≤ roundTo2 b := by
  unfold roundTo2
  have h0 : roundHalfInt (a * 100) ≤ roundHalfInt (b * 100) := roundHalfInt_mono (by linarith)
  have : (roundHalfInt (a * 100) : ℚ) ≤ (roundHalfInt (b * 100) : ℚ) := by exact_mod_cast h0
  linarith

/-- C3: for a nonempty transaction list, calculate_risk_metrics takes recent
as the maximum transaction timestamp (an attained upper bound), the window as
all transactions at least 90 days (129600 minutes) back from it, utilization
as 100 times window spend over three times the credit limit, and the raw risk
score as the capped utilization impact plus 5 per foreign, 3 per large and 2
per late-night transaction, clamped at 100; the stored score and utilization
are these values rounded to one decimal digit; and a credit limit of 10000
with a 90-day spend of 9000 yields utilization exactly 30. -/
theorem c3_risk_metrics_formula (txs : List Tx) (p : CustomerProfile) (h : txs ≠ []) :
    last3m txs = txs.filter (fun t => decide (recentDate txs - 129600 ≤ t.date)) ∧
    (∀ t ∈ txs, t.date ≤ recentDate txs) ∧
    (∃ t ∈ txs, t.date = recentDate txs) ∧
    utilizationRaw txs p.credit_limit = 100 * totalSpend3m txs / (p.credit_limit * 3) ∧
    riskScoreRaw txs p.credit_limit =
      min (min (utilizationRaw txs p.credit_limit * 0.3) 30 +
        5 * (foreignCount3m txs : ℚ) + 3 * (largeCount3m txs : ℚ) +
        2 * (lateNightCount3m txs : ℚ)) 100 ∧
    lateNightCount3m txs =
      ((last3m txs).filter (fun t => decide (23 ≤ hourOf t.date ∨ hourOf t.date ≤ 5))).length ∧
    (calculate_risk_metrics txs p).risk_score = roundTo1 (riskScoreRaw txs p.credit_limit) ∧
    (calculate_risk_metrics txs p).utilization = roundTo1 (utilizationRaw txs p.credit_limit) ∧
    (p.credit_limit = 10000 → totalSpend3m txs = 9000 →
      utilizationRaw txs p.credit_limit = 30 ∧ (calculate_risk_metrics txs p).utilization = 30) := by
  refine ⟨?_, ?_, ?_, ?_, ?_, rfl, rfl, rfl, ?_⟩
  · cases txs with
    | nil => exact absurd rfl h
    | cons a t => rfl
  · intro t ht
    exact le_foldr_max _ _ (List.mem_map.mpr ⟨t, ht, rfl⟩)
  · have hm : (txs.map (fun t => t.date)).foldr max 0 ∈ txs.map (fun t => t.date) :=
      foldr_max_mem _ (by simpa using h)
    rcases List.mem_map.mp hm with ⟨t, ht, hd⟩
    exact ⟨t, ht, hd⟩
  · unfold utilizationRaw; ring
  · unfold riskScoreRaw
    push_cast
    ring
  · intro hcl hsp
    have hu : utilizationRaw txs p.credit_limit = 30 := by
      unfold utilizationRaw
      rw [hcl, hsp]
      norm_num
    refine ⟨hu, ?_⟩
    show roundTo1 (utilizationRaw txs p.credit_limit) = 30
    rw [hu]
    decide

/-- Witness for C3 at a concrete customer with credit limit 10000 and 90-day
spend 9000. -/
def txC3 (d : ℕ) (amt : ℚ) : Tx :=
  { customer_id := "CUST_00001", transaction_id := "TXN_CUST_00001_00000"
    date := d, category := "Shopping", merchant := "Department Store"
    amount := amt, is_foreign := false, is_online := false }

/-- Concrete transaction list with 90-day spend 9000. -/
def txsC3 : List Tx := [txC3 28000080 3000, txC3 28000140 3000, txC3 28000200 3000]

/-- Concrete profile with credit limit 10000. -/
def pC3 : CustomerProfile :=
  { customer_id := "CUST_00001", credit_limit := 10000, segment := "Standard"
    member_since := 27000000, annual_fee := 95 }

theorem c3_risk_metrics_formula_witness :
    txsC3 ≠ [] ∧ utilizationRaw txsC3 pC3.credit_limit = 30 ∧
    (calculate_risk_metrics txsC3 pC3).utilization = 30 := by
  refine ⟨by decide, ?_⟩
  have h := (c3_risk_metrics_formula txsC3 pC3 (by decide)).2.2.2.2.2.2.2.2
  exact h (by decide) (by decide)

/-- Predicate of claim C4 as stated of a generated customer row: the stored
risk category matches the documented thresholds applied to the stored
(rounded) risk score. -/
def rowCategoryMatchesStored (r : CustomerRow) : Prop :=
  (r.risk_score < 30 → r.risk_category = "Low") ∧
  (30 ≤ r.risk_score ∧ r.risk_score < 60 → r.risk_category = "Medium") ∧
  (60 ≤ r.risk_score → r.risk_category = "High")

instance (r : CustomerRow) : Decidable (rowCategoryMatchesStored r) := by
  unfold rowCategoryMatchesStored
  infer_instance

/-- Python stream of the C4 counterexample run. The three oldest months draw
all zeros (seven draws per transaction, taking the Travel branch without a
fallback draw); the thirty transactions of the three newest months use eight
draws each: fallback tie-break 0.2, key choice 0.9 (the ninth key Other),
merchant 0, day 0, hour 0.5 (noon, so no late-night flag), minute 0, the
foreign flag 0 (foreign) for the first ten of them and 0.5 (domestic) for the
other twenty, online 0.5. -/
def py4Stream (n : ℕ) : ℚ :=
  if n < 210 then 0
  else
    let k := (n - 210) % 8
    let t := (n - 210) / 8
    if k = 0 then 0.2
    else if k = 1 then 0.9
    else if k = 4 then 0.5
    else if k = 6 then (if t < 10 then 0 else 0.5)
    else if k = 7 then 0.5
    else 0

/-- Numpy stream of the C4 counterexample run: credit limit draw 0.1 (5000),
segment draw 0.8 (Basic), tenure draw 0, then per month a count draw 0 (ten
transactions) and a dead multiplier draw 0, and amount draws of 0 for the
three oldest months and 78/145 of the Other range (exactly 166.00) for the
three newest months, whose thirty transactions form the 90-day window with
spend 4980. -/
def np4Stream (n : ℕ) : ℚ :=
  if n = 0 then 0.1
  else if n = 1 then 0.8
  else if n = 2 then 0
  else if (n - 3) % 12 < 2 then 0
  else if 39 ≤ n then 78 / 145
  else 0

/-- Concrete valid random state of the C4 counterexample run. -/
def state4 : GenState :=
  { pyStream := py4Stream, pyIdx := 0, npStream := np4Stream, npIdx := 0 }

/-- The C4 counterexample state is a valid stream state. -/
theorem validState_state4 : ValidState state4 := by
  constructor
  · intro n
    show 0 ≤ py4Stream n ∧ py4Stream n < 1
    unfold py4Stream
    dsimp only
    split_ifs <;> norm_num
  · intro n
    show 0 ≤ np4Stream n ∧ np4Stream n < 1
    unfold np4Stream
    split_ifs <;> norm_num

set_option maxRecDepth 100000 in
/-- C4 counterexample: a customer generated by the complete dataset pipeline
at a valid stream (credit limit 5000, Basic, six months of ten transactions,
the newest three months forming a 30-transaction window of 166.00 Other
charges with ten foreign ones) has unrounded clamped score
4980/500 times three tenths plus 50 = 59.96, stored risk score exactly 60.0
and stored category Medium: the claim instance that a generated customer with
stored score 60.0 is High is therefore false. -/
theorem c4_counterexample :
    ValidState state4 ∧
    (generate_complete_dataset 28512000 1 state4).1.map
      (fun r => (r.risk_score, r.risk_category)) = [((60 : ℚ), "Medium")] ∧
    ¬ (∀ r ∈ (generate_complete_dataset 28512000 1 state4).1,
        rowCategoryMatchesStored r) :=
  ⟨validState_state4, by decide, by decide⟩

/-- The window is contained in the full transaction list. -/
theorem last3m_subset (txs : List Tx) : ∀ t ∈ last3m txs, t ∈ txs := by
  cases txs with
  | nil => intro t ht; cases ht
  | cons a l =>
    intro t ht
    have ht2 : t ∈ (a :: l).filter
        (fun t => decide (recentDate (a :: l) - 129600 ≤ t.date)) := ht
    exact List.mem_of_mem_filter ht2

/-- C4 amended: for every customer with positive credit limit and nonnegative
transaction amounts, the stored risk score lies in [0, 100]; the stored
category matches the documented thresholds applied to the unrounded clamped
score (from which it is computed), while the stored score is that value
rounded to one decimal, so the two can disagree within 0.05 of a boundary. -/
theorem c4_amended (txs : List Tx) (p : CustomerProfile)
    (ha : ∀ t ∈ txs, 0 ≤ t.amount) (hc : 0 < p.credit_limit) :
    0 ≤ (calculate_risk_metrics txs p).risk_score ∧
    (calculate_risk_metrics txs p).risk_score ≤ 100 ∧
    ((calculate_risk_metrics txs p).risk_category = "Low" ↔
      riskScoreRaw txs p.credit_limit < 30) ∧
    ((calculate_risk_metrics txs p).risk_category = "Medium" ↔
      30 ≤ riskScoreRaw txs p.credit_limit ∧ riskScoreRaw txs p.credit_limit < 60) ∧
    ((calculate_risk_metrics txs p).risk_category = "High" ↔
      60 ≤ riskScoreRaw txs p.credit_limit) := by
  have hspend : 0 ≤ totalSpend3m txs := by
    unfold totalSpend3m
    apply List.sum_nonneg
    intro x hx
    rcases List.mem_map.mp hx with ⟨t, ht, rfl⟩
    exact ha t (last3m_subset txs t ht)
  have hu : 0 ≤ utilizationRaw txs p.credit_limit := by
    unfold utilizationRaw
    have hd : (0 : ℚ) ≤ p.credit_limit * 3 := by positivity
    exact mul_nonneg (div_nonneg hspend hd) (by norm_num)
  have hscore_nonneg : 0 ≤ riskScoreRaw txs p.credit_limit := by
    unfold riskScoreRaw
    have h1 : (0 : ℚ) ≤ min (utilizationRaw txs p.credit_limit * (3 / 10)) 30 :=
      le_min (by positivity) (by norm_num)
    have h2 : (0 : ℚ) ≤ (foreignCount3m txs : ℚ) := Nat.cast_nonneg _
    have h3 : (0 : ℚ) ≤ (largeCount3m txs : ℚ) := Nat.cast_nonneg _
    have h4 : (0 : ℚ) ≤ (lateNightCount3m txs : ℚ) := Nat.cast_nonneg _
    exact le_min (by linarith) (by norm_num)
  have hscore_le : riskScoreRaw txs p.credit_limit ≤ 100 := by
    unfold riskScoreRaw
    exact min_le_right _ _
  refine ⟨roundTo1_nonneg hscore_nonneg, roundTo1_le_100 hscore_le, ?_, ?_, ?_⟩ <;>
    · show riskCategoryOf (riskScoreRaw txs p.credit_limit) = _ ↔ _
      unfold riskCategoryOf
      split_ifs with h1 h2 <;> simp_all <;> try linarith

/-- Witness profile for the amended C4 theorem. -/
def pC4w : CustomerProfile :=
  { customer_id := "CUST_00003", credit_limit := 5000, segment := "Basic"
    member_since := 27000000, annual_fee := 0 }

/-- Witness transaction list for the amended C4 theorem. -/
def txsC4w : List Tx :=
  [{ customer_id := "CUST_00003", transaction_id := "TXN_CUST_00003_00000"
     date := 28000080, category := "Dining", merchant := "Coffee Shop"
     amount := 500, is_foreign := false, is_online := false }]

theorem c4_amended_witness :
    (∀ t ∈ txsC4w, 0 ≤ t.amount) ∧ 0 < pC4w.credit_limit ∧
    (0 ≤ (calculate_risk_metrics txsC4w pC4w).risk_score ∧
     (calculate_risk_metrics txsC4w pC4w).risk_score ≤ 100 ∧
     ((calculate_risk_metrics txsC4w pC4w).risk_category = "Low" ↔
       riskScoreRaw txsC4w pC4w.credit_limit < 30) ∧
     ((calculate_risk_metrics txsC4w pC4w).risk_category = "Medium" ↔
       30 ≤ riskScoreRaw txsC4w pC4w.credit_limit ∧
         riskScoreRaw txsC4w pC4w.credit_limit < 60) ∧
     ((calculate_risk_metrics txsC4w pC4w).risk_category = "High" ↔
       60 ≤ riskScoreRaw txsC4w pC4w.credit_limit)) :=
  ⟨by decide, by decide, c4_amended txsC4w pC4w (by decide) (by decide)⟩

/-- Profile used for the C6 evaluation; calculate_risk_metrics only reads its
credit limit. -/
def pC6 : CustomerProfile :=
  { customer_id := "CUST_00004", credit_limit := 10000, segment := "Standard"
    member_since := 27000000, annual_fee := 95 }

/-- C6: calculate_risk_metrics on an empty transaction table does not abort;
it silently returns a fully populated metric record whose avg_transaction is
the NaN of an empty mean (modeled as none), with zero utilization and a Low
category, instead of the fatal error the specification requires. -/
theorem c6_code_eval :
    calculate_risk_metrics [] pC6 =
      { risk_score := 0, risk_category := "Low", utilization := 0, total_spend_3m := 0
        foreign_txn_count := 0, large_txn_count := 0, avg_transaction := none } ∧
    (calculate_risk_metrics [] pC6).avg_transaction = none := by
  exact ⟨by decide, by decide⟩

/-- C10: get_quarterly_comparison operates on a copy of its input, so the
caller-visible transaction table after the call is exactly the input: no
derived quarter column is attached to it and no row or cell changes. -/
theorem c10_no_input_mutation (txs : List Tx) : (get_quarterly_comparison txs).2 = txs := rfl

/-- The month loop is pointwise independent of the average-monthly-spend
tunable: the only use of that tunable is the dead monthly_spend binding, and
the multiplier draw it consumes is drawn either way. -/
theorem genMonths_avg_irrel (now nm : ℕ) (cid : String) (tp dp : ℚ) (offs : List ℕ) :
    ∀ (a1 a2 : ℚ) (acc : List Tx) (s : GenState),
      genMonths now nm cid a1 tp dp offs acc s = genMonths now nm cid a2 tp dp offs acc s := by
  induction offs with
  | nil => intro a1 a2 acc s; rfl
  | cons m rest ih =>
    intro a1 a2 acc s
    simp only [genMonths]
    exact ih a1 a2 _ _

/-- C9: the monthly spend target does not influence any field of any
generated transaction. For any two values of the segment average-monthly-
spend tunable, with equal travel and dining probabilities and the same random
state, the transaction loop produces identical output and final state; and
generate_transactions is that loop applied to the segment tunables. -/
theorem c9_monthly_spend_unused (now : ℕ) (cid : String) (a1 a2 tp dp : ℚ)
    (nm : ℕ) (s : GenState) :
    txLoop now cid a1 tp dp nm s = txLoop now cid a2 tp dp nm s ∧
    (∀ p : CustomerProfile,
      generate_transactions now p nm s =
        txLoop now p.customer_id (segmentParams p.credit_limit p.segment).1
          (segmentParams p.credit_limit p.segment).2.1
          (segmentParams p.credit_limit p.segment).2.2 nm s) := by
  constructor
  · unfold txLoop
    exact genMonths_avg_irrel now nm cid tp dp (List.range nm) a1 a2 [] s
  · intro p
    rfl

/-- The concrete question of the intent-precedence check. -/
def q7 : String := "What is the risk score trend?"

/-- C7: intent classification checks Risk, Spending, Category, Trend and then
the default, case-insensitively, first match winning; the concrete question
matching both the Risk and Trend keyword sets resolves to the Risk branch. -/
theorem c7_intent_precedence :
    (∀ (q : String) (c : CustomerRow) (t : List Tx),
      matchesAny riskKeywords (lowerStr q) = true →
      generate_rule_based_insight q c t = explainRisk c t) ∧
    (∀ (q : String) (c : CustomerRow) (t : List Tx),
      matchesAny riskKeywords (lowerStr q) = false →
      matchesAny spendingKeywords (lowerStr q) = true →
      generate_rule_based_insight q c t = explainSpending c t) ∧
    (∀ (q : String) (c : CustomerRow) (t : List Tx),
      matchesAny riskKeywords (lowerStr q) = false →
      matchesAny spendingKeywords (lowerStr q) = false →
      matchesAny categoryKeywords (lowerStr q) = true →
      generate_rule_based_insight q c t = explainCategories c t) ∧
    (∀ (q : String) (c : CustomerRow) (t : List Tx),
      matchesAny riskKeywords (lowerStr q) = false →
      matchesAny spendingKeywords (lowerStr q) = false →
      matchesAny categoryKeywords (lowerStr q) = false →
      matchesAny trendKeywords (lowerStr q) = true →
      generate_rule_based_insight q c t = explainTrends c t) ∧
    (∀ (q : String) (c : CustomerRow) (t : List Tx),
      matchesAny riskKeywords (lowerStr q) = false →
      matchesAny spendingKeywords (lowerStr q) = false →
      matchesAny categoryKeywords (lowerStr q) = false →
      matchesAny trendKeywords (lowerStr q) = false →
      generate_rule_based_insight q c t = generalSummary c t) ∧
    (matchesAny riskKeywords (lowerStr q7) = true ∧
     matchesAny trendKeywords (lowerStr q7) = true ∧
     matchesAny categoryKeywords (lowerStr q7) = true ∧
     ∀ (c : CustomerRow) (t : List Tx),
       generate_rule_based_insight q7 c t = explainRisk c t) := by
  refine ⟨?_, ?_, ?_, ?_, ?_, by decide, by decide, by decide, ?_⟩
  · intro q c t h1
    simp [generate_rule_based_insight, h1]
  · intro q c t h1 h2
    simp [generate_rule_based_insight, h1, h2]
  · intro q c t h1 h2 h3
    simp [generate_rule_based_insight, h1, h2, h3]
  · intro q c t h1 h2 h3 h4
    simp [generate_rule_based_insight, h1, h2, h3, h4]
  · intro q c t h1 h2 h3 h4
    simp [generate_rule_based_insight, h1, h2, h3, h4]
  · intro c t
    have hr : matchesAny riskKeywords (lowerStr q7) = true := by decide
    simp [generate_rule_based_insight, hr]

/-- Concrete customer row shared by the handler witnesses. -/
def cRowW : CustomerRow :=
  { customer_id := "CUST_00001", credit_limit := 10000, segment := "Standard"
    member_since := 27000000, annual_fee := 95, risk_score := 12, risk_category := "Low"
    utilization := 9.8, total_spend_3m := 2940, foreign_txn_count := 0
    large_txn_count := 0, avg_transaction := some 245 }

/-- Concrete transaction table shared by the handler witnesses. -/
def txsRowW : List Tx :=
  [{ customer_id := "CUST_00001", transaction_id := "TXN_CUST_00001_00000"
     date := 28000080, category := "Dining", merchant := "Coffee Shop"
     amount := 120.50, is_foreign := false, is_online := false },
   { customer_id := "CUST_00001", transaction_id := "TXN_CUST_00001_00001"
     date := 28000140, category := "Shopping", merchant := "Boutique"
     amount := 640.25, is_foreign := false, is_online := true }]

theorem c7_intent_precedence_witness :
    generate_rule_based_insight q7 cRowW txsRowW = explainRisk cRowW txsRowW :=
  c7_intent_precedence.2.2.2.2.2.2.2.2 cRowW txsRowW

/-- A nonempty left operand makes a string append nonempty. -/
theorem append_data_ne (s t : String) (hs : s.data ≠ []) : (s ++ t).data ≠ [] := by
  rw [String.data_append]
  intro h
  rcases List.append_eq_nil.mp h with ⟨h1, _⟩
  exact hs h1

/-- A line join starting from a nonempty line is nonempty. -/
theorem joinLines_data_ne (a : String) (l : List String) (ha : a.data ≠ []) :
    (joinLines (a :: l)).data ≠ [] := by
  cases l with
  | nil => exact ha
  | cons b r => exact append_data_ne _ _ (append_data_ne _ _ ha)

/-- A string with nonempty character data is not the empty string. -/
theorem ne_empty_of_data (s : String) (h : s.data ≠ []) : s ≠ "" := by
  intro he
  rw [he] at h
  exact h rfl

/-- The risk branch output is never empty. -/
theorem explainRisk_data_ne (c : CustomerRow) (t : List Tx) : (explainRisk c t).data ≠ [] := by
  unfold explainRisk
  apply joinLines_data_ne
  repeat apply append_data_ne
  decide

/-- The spending branch output is never empty. -/
theorem explainSpending_data_ne (c : CustomerRow) (t : List Tx) :
    (explainSpending c t).data ≠ [] := by
  unfold explainSpending
  apply joinLines_data_ne
  repeat apply append_data_ne
  decide

/-- The categories branch output is never empty. -/
theorem explainCategories_data_ne (c : CustomerRow) (t : List Tx) :
    (explainCategories c t).data ≠ [] := by
  unfold explainCategories
  apply joinLines_data_ne
  decide

/-- The trends branch output is never empty. -/
theorem explainTrends_data_ne (c : CustomerRow) (t : List Tx) :
    (explainTrends c t).data ≠ [] := by
  unfold explainTrends
  apply joinLines_data_ne
  decide

/-- The default summary is never empty. -/
theorem generalSummary_data_ne (c : CustomerRow) (t : List Tx) :
    (generalSummary c t).data ≠ [] := by
  unfold generalSummary
  repeat apply append_data_ne
  decide

/-- C8: in the rule-based configuration, answer_query is total (the embedding
of every branch is a total function) and returns a nonempty string for every
question, including questions matching no keyword set, which always land in
the default general-summary branch. -/
theorem c8_total_nonempty (q : String) (c : CustomerRow) (txs : List Tx)
    (service : String → String → Except String String) (h : txs ≠ []) :
    answer_query false service q c txs ≠ "" ∧
    (matchesAny riskKeywords (lowerStr q) = false →
     matchesAny spendingKeywords (lowerStr q) = false →
     matchesAny categoryKeywords (lowerStr q) = false →
     matchesAny trendKeywords (lowerStr q) = false →
     answer_query false service q c txs = generalSummary c txs) := by
  have hrb : answer_query false service q c txs = generate_rule_based_insight q c txs := rfl
  constructor
  · rw [hrb]
    unfold generate_rule_based_insight
    dsimp only
    split_ifs
    · exact ne_empty_of_data _ (explainRisk_data_ne c txs)
    · exact ne_empty_of_data _ (explainSpending_data_ne c txs)
    · exact ne_empty_of_data _ (explainCategories_data_ne c txs)
    · exact ne_empty_of_data _ (explainTrends_data_ne c txs)
    · exact ne_empty_of_data _ (generalSummary_data_ne c txs)
  · intro h1 h2 h3 h4
    rw [hrb]
    simp [generate_rule_based_insight, h1, h2, h3, h4]

/-- External service that always fails, for the fallback checks. -/
def svcFail (msg : String) : String → String → Except String String :=
  fun _ _ => Except.error msg

theorem c8_total_nonempty_witness :
    txsRowW ≠ [] ∧
    answer_query false (svcFail "unavailable") "" cRowW txsRowW ≠ "" ∧
    answer_query false (svcFail "unavailable") "" cRowW txsRowW = generalSummary cRowW txsRowW :=
  ⟨by decide,
   (c8_total_nonempty "" cRowW txsRowW (svcFail "unavailable") (by decide)).1,
   (c8_total_nonempty "" cRowW txsRowW (svcFail "unavailable") (by decide)).2
     (by decide) (by decide) (by decide) (by decide)⟩

/-- The concrete question of the fallback check. -/
def q1 : String := "What are the main spending patterns for this customer?"

/-- C1: with external mode enabled and an always-failing external service,
answer_query does not raise, but it returns the literal error text built
inside query_with_openai rather than falling back: its output differs from
the text the rule-based-only configuration returns for the identical
question, customer and transactions, contradicting the advertised transparent
fallback (the error text itself even announces a fallback that never
happens). -/
theorem c1_code_eval :
    (∀ (q : String) (c : CustomerRow) (t : List Tx) (e : String),
      answer_query true (svcFail e) q c t =
        "Error querying OpenAI: " ++ e ++ "\n\nFalling back to rule-based insights...") ∧
    answer_query true (svcFail "boom") q1 cRowW txsRowW ≠
      answer_query false (svcFail "boom") q1 cRowW txsRowW ∧
    answer_query false (svcFail "boom") q1 cRowW txsRowW =
      generate_rule_based_insight q1 cRowW txsRowW := by
  refine ⟨fun q c t e => rfl, ?_, rfl⟩
  decide

/-- The amount-range table of the specification, keyed by category. -/
def amountRangeOf (c : String) : ℚ × ℚ :=
  if c = "Travel" then (200, 2000)
  else if c = "Dining" then (15, 300)
  else if c = "Shopping" then (20, 800)
  else if c = "Groceries" then (30, 200)
  else (10, 300)

/-- The property claim C5 states of every generated transaction: the stored
amount lies in the half-open range of its own category and in no other
category range. -/
def claimRangeProp (tx : Tx) : Prop :=
  (amountRangeOf tx.category).1 ≤ tx.amount ∧ tx.amount < (amountRangeOf tx.category).2 ∧
  ∀ c ∈ categoryKeys, c ≠ tx.category →
    ¬ ((amountRangeOf c).1 ≤ tx.amount ∧ tx.amount < (amountRangeOf c).2)

instance (tx : Tx) : Decidable (claimRangeProp tx) := by
  unfold claimRangeProp
  infer_instance

/-- The python stream function is unchanged by a python draw. -/
@[simp] theorem pyRandom_snd_py (s : GenState) : (pyRandom s).2.pyStream = s.pyStream := rfl

/-- The numpy stream function is unchanged by a python draw. -/
@[simp] theorem pyRandom_snd_np (s : GenState) : (pyRandom s).2.npStream = s.npStream := rfl

/-- The python stream function is unchanged by a python randint. -/
@[simp] theorem pyRandint_snd_py (a b : ℕ) (s : GenState) :
    (pyRandint a b s).2.pyStream = s.pyStream := rfl

/-- The numpy stream function is unchanged by a python randint. -/
@[simp] theorem pyRandint_snd_np (a b : ℕ) (s : GenState) :
    (pyRandint a b s).2.npStream = s.npStream := rfl

/-- The python stream function is unchanged by a python choice. -/
@[simp] theorem pyChoice_snd_py {α : Type} (l : List α) (d : α) (s : GenState) :
    (pyChoice l d s).2.pyStream = s.pyStream := rfl

/-- The numpy stream function is unchanged by a python choice. -/
@[simp] theorem pyChoice_snd_np {α : Type} (l : List α) (d : α) (s : GenState) :
    (pyChoice l d s).2.npStream = s.npStream := rfl

/-- The python stream function is unchanged by a numpy draw. -/
@[simp] theorem npRandom_snd_py (s : GenState) : (npRandom s).2.pyStream = s.pyStream := rfl

/-- The numpy stream function is unchanged by a numpy draw. -/
@[simp] theorem npRandom_snd_np (s : GenState) : (npRandom s).2.npStream = s.npStream := rfl

/-- The python stream function is unchanged by a numpy uniform draw. -/
@[simp] theorem npUniform_snd_py (lo hi : ℚ) (s : GenState) :
    (npUniform lo hi s).2.pyStream = s.pyStream := rfl

/-- The numpy stream function is unchanged by a numpy uniform draw. -/
@[simp] theorem npUniform_snd_np (lo hi : ℚ) (s : GenState) :
    (npUniform lo hi s).2.npStream = s.npStream := rfl

/-- The python stream function is unchanged by a numpy randint. -/
@[simp] theorem npRandint_snd_py (a b : ℕ) (s : GenState) :
    (npRandint a b s).2.pyStream = s.pyStream := rfl

/-- The numpy stream function is unchanged by a numpy randint. -/
@[simp] theorem npRandint_snd_np (a b : ℕ) (s : GenState) :
    (npRandint a b s).2.npStream = s.npStream := rfl

/-- The python stream function is unchanged by the category tie-break. -/
@[simp] theorem categoryDraw_snd_py (rv tp dp : ℚ) (s : GenState) :
    (categoryDraw rv tp dp s).2.pyStream = s.pyStream := by
  unfold categoryDraw
  split_ifs <;> rfl

/-- The numpy stream function is unchanged by the category tie-break. -/
@[simp] theorem categoryDraw_snd_np (rv tp dp : ℚ) (s : GenState) :
    (categoryDraw rv tp dp s).2.npStream = s.npStream := by
  unfold categoryDraw
  split_ifs <;> rfl

/-- The python stream function is unchanged by the amount draw. -/
@[simp] theorem amountDraw_snd_py (c : String) (s : GenState) :
    (amountDraw c s).2.pyStream = s.pyStream := by
  unfold amountDraw
  split_ifs <;> rfl

/-- The numpy stream function is unchanged by the amount draw. -/
@[simp] theorem amountDraw_snd_np (c : String) (s : GenState) :
    (amountDraw c s).2.npStream = s.npStream := by
  unfold amountDraw
  split_ifs <;> rfl

/-- The python stream function is unchanged by one transaction draw. -/
@[simp] theorem genOneTx_snd_py (cid : String) (tp dp : ℚ) (ms i : ℕ) (s : GenState) :
    (genOneTx cid tp dp ms i s).2.pyStream = s.pyStream := by
  unfold genOneTx
  dsimp only
  simp

/-- The numpy stream function is unchanged by one transaction draw. -/
@[simp] theorem genOneTx_snd_np (cid : String) (tp dp : ℚ) (ms i : ℕ) (s : GenState) :
    (genOneTx cid tp dp ms i s).2.npStream = s.npStream := by
  unfold genOneTx
  dsimp only
  simp

/-- Validity only depends on the two stream functions. -/
theorem validState_of_streams {s s1 : GenState} (hp : s1.pyStream = s.pyStream)
    (hn : s1.npStream = s.npStream) (h : ValidState s) : ValidState s1 := by
  unfold ValidState at *
  rw [hp, hn]
  exact h

/-- Rounding an integer-valued rational to two decimals is the identity, and
rounding any point of a half-open integer-bounded range stays in the closed
range. -/
theorem roundTwo_range (lo hi u : ℚ) (h0 : 0 ≤ u) (h1 : u < 1) (hle : lo ≤ hi)
    (hl : roundTo2 lo = lo) (hh : roundTo2 hi = hi) :
    lo ≤ roundTo2 (lo + u * (hi - lo)) ∧ roundTo2 (lo + u * (hi - lo)) ≤ hi := by
  have hx1 : lo ≤ lo + u * (hi - lo) := by nlinarith
  have hx2 : lo + u * (hi - lo) ≤ hi := by nlinarith
  constructor
  · calc lo = roundTo2 lo := hl.symm
      _ ≤ roundTo2 (lo + u * (hi - lo)) := roundTo2_mono hx1
  · calc roundTo2 (lo + u * (hi - lo)) ≤ roundTo2 hi := roundTo2_mono hx2
      _ = hi := hh

/-- The rounded uniform amount draw stays in the closed version of the range
fixed for the category. -/
theorem amountDraw_bounds (c : String) (s : GenState) (hs : ValidState s) :
    (amountRangeOf c).1 ≤ roundTo2 (amountDraw c s).1 ∧
    roundTo2 (amountDraw c s).1 ≤ (amountRangeOf c).2 := by
  obtain ⟨hu0, hu1⟩ := hs.2 s.npIdx
  by_cases h1 : c = "Travel"
  · simp only [amountDraw, amountRangeOf, h1, if_pos, npUniform, npRandom]
    exact roundTwo_range 200 2000 _ hu0 hu1 (by norm_num) (by decide) (by decide)
  · by_cases h2 : c = "Dining"
    · simp only [amountDraw, amountRangeOf, h1, h2, if_neg, if_pos, npUniform, npRandom]
      exact roundTwo_range 15 300 _ hu0 hu1 (by norm_num) (by decide) (by decide)
    · by_cases h3 : c = "Shopping"
      · simp only [amountDraw, amountRangeOf, h1, h2, h3, if_neg, if_pos, npUniform, npRandom]
        exact roundTwo_range 20 800 _ hu0 hu1 (by norm_num) (by decide) (by decide)
      · by_cases h4 : c = "Groceries"
        · simp only [amountDraw, amountRangeOf, h1, h2, h3, h4, if_neg, if_pos, npUniform,
            npRandom]
          exact roundTwo_range 30 200 _ hu0 hu1 (by norm_num) (by decide) (by decide)
        · simp only [amountDraw, amountRangeOf, h1, h2, h3, h4, if_neg, npUniform, npRandom]
          exact roundTwo_range 10 300 _ hu0 hu1 (by norm_num) (by decide) (by decide)

/-- The invariant claim C5 is amended to: stored amount in the closed range of
its own category. -/
def txAmountInRange (tx : Tx) : Prop :=
  (amountRangeOf tx.category).1 ≤ tx.amount ∧ tx.amount ≤ (amountRangeOf tx.category).2

/-- One generated transaction satisfies the closed-range invariant. -/
theorem genOneTx_bounds (cid : String) (tp dp : ℚ) (ms i : ℕ) (s : GenState)
    (hs : ValidState s) : txAmountInRange (genOneTx cid tp dp ms i s).1 := by
  unfold txAmountInRange genOneTx
  dsimp only
  apply amountDraw_bounds
  exact validState_of_streams (by simp) (by simp) hs

/-- The inner loop preserves the closed-range invariant and the validity of
the stream state. -/
theorem genMonthTxs_bounds (cid : String) (tp dp : ℚ) (ms : ℕ) :
    ∀ (k : ℕ) (acc : List Tx) (s : GenState), ValidState s →
      (∀ tx ∈ acc, txAmountInRange tx) →
      (∀ tx ∈ (genMonthTxs cid tp dp ms k acc s).1, txAmountInRange tx) ∧
      ValidState (genMonthTxs cid tp dp ms k acc s).2 := by
  intro k
  induction k with
  | zero => intro acc s hs hacc; exact ⟨hacc, hs⟩
  | succ n ih =>
    intro acc s hs hacc
    simp only [genMonthTxs]
    apply ih
    · exact validState_of_streams (by simp) (by simp) hs
    · intro tx htx
      rcases List.mem_append.mp htx with hmem | hmem
      · exact hacc tx hmem
      · rw [List.mem_singleton.mp hmem]
        exact genOneTx_bounds cid tp dp ms acc.length s hs

/-- The month loop preserves the closed-range invariant and state validity. -/
theorem genMonths_bounds (now nm : ℕ) (cid : String) (a tp dp : ℚ) :
    ∀ (offs : List ℕ) (acc : List Tx) (s : GenState), ValidState s →
      (∀ tx ∈ acc, txAmountInRange tx) →
      (∀ tx ∈ (genMonths now nm cid a tp dp offs acc s).1, txAmountInRange tx) ∧
      ValidState (genMonths now nm cid a tp dp offs acc s).2 := by
  intro offs
  induction offs with
  | nil => intro acc s hs hacc; exact ⟨hacc, hs⟩
  | cons m rest ih =>
    intro acc s hs hacc
    simp only [genMonths]
    have hv : ValidState (npUniform 0.7 1.3 (npRandint 10 40 s).2).2 :=
      validState_of_streams (by simp) (by simp) hs
    have h1 := genMonthTxs_bounds cid tp dp (now - 43200 * (nm - m))
      (npRandint 10 40 s).1 acc (npUniform 0.7 1.3 (npRandint 10 40 s).2).2 hv hacc
    exact ih _ _ h1.2 h1.1

/-- C5 amended: for every valid random state, every transaction produced by
generate_transactions has its stored amount in the CLOSED range [lo, hi] of
its own category: the raw uniform draw lies in [lo, hi), but the rounding to
cents can reach the upper endpoint, and the documented ranges of different
categories overlap, so membership in another category range cannot be
excluded. -/
theorem c5_amended (now : ℕ) (p : CustomerProfile) (nm : ℕ) (s : GenState)
    (hs : ValidState s) :
    ∀ tx ∈ (generate_transactions now p nm s).1,
      (amountRangeOf tx.category).1 ≤ tx.amount ∧
      tx.amount ≤ (amountRangeOf tx.category).2 := by
  intro tx htx
  have hmain := (genMonths_bounds now nm p.customer_id
    (segmentParams p.credit_limit p.segment).1
    (segmentParams p.credit_limit p.segment).2.1
    (segmentParams p.credit_limit p.segment).2.2
    (List.range nm) [] s hs (by intro t ht; cases ht)).1
  exact hmain tx htx

/-- Python stream of the C5 counterexample run. -/
def pyList5 : List ℚ := [0.2, 0, 0, 0, 0, 0, 0]

/-- Numpy stream of the C5 counterexample run: minimum transaction count, and
a first amount draw of 284999/285000 of the Dining range. -/
def npList5 : List ℚ := [0, 0, 284999 / 285000]

/-- Concrete valid random state for the C5 counterexample. -/
def state5 : GenState :=
  { pyStream := fun n => pyList5.getD n 0, pyIdx := 0
    npStream := fun n => npList5.getD n 0, npIdx := 0 }

/-- Concrete profile for the C5 counterexample. -/
def p5 : CustomerProfile :=
  { customer_id := "CUST_00001", credit_limit := 10000, segment := "Standard"
    member_since := 0, annual_fee := 95 }

/-- Values read off a listed stream with an in-range default stay in range. -/
theorem getD_range (l : List ℚ) (d : ℚ) (hl : ∀ x ∈ l, 0 ≤ x ∧ x < 1)
    (hd : 0 ≤ d ∧ d < 1) : ∀ n, 0 ≤ l.getD n d ∧ l.getD n d < 1 := by
  intro n
  induction l generalizing n with
  | nil => simpa [List.getD] using hd
  | cons a t ih =>
    cases n with
    | zero => exact hl a (List.mem_cons_self a t)
    | succ k =>
      exact ih (fun x hx => hl x (List.mem_cons_of_mem a hx)) k

/-- The C5 counterexample state is a valid stream state. -/
theorem validState_state5 : ValidState state5 := by
  constructor
  · intro n
    exact getD_range pyList5 0 (by decide) (by decide) n
  · intro n
    exact getD_range npList5 0 (by decide) (by decide) n

/-- C5 counterexample: a reachable run produces a Dining transaction whose
uniform draw 299.999 is stored as 300.00, which lies outside the half-open
Dining range [15, 300) and inside the Shopping range [20, 800): the claim as
stated fails on both conjuncts. -/
theorem c5_counterexample :
    ValidState state5 ∧
    ¬ (∀ tx ∈ (generate_transactions 28000000 p5 1 state5).1, claimRangeProp tx) := by
  refine ⟨validState_state5, ?_⟩
  decide

/-- The first transaction the C5 run generates, written out literally. -/
def tx5w : Tx :=
  { customer_id := "CUST_00001", transaction_id := "TXN_CUST_00001_00000"
    date := 27956800, category := "Dining", merchant := "Fine Dining Restaurant"
    amount := 300, is_foreign := true, is_online := true }

theorem c5_amended_witness :
    (amountRangeOf tx5w.category).1 ≤ tx5w.amount ∧
    tx5w.amount ≤ (amountRangeOf tx5w.category).2 :=
  c5_amended 28000000 p5 1 state5 validState_state5 tx5w (by decide)

/-- C2 amended: a dataset run is a pure function of seed, generation instant
and customer count. The constructor re-seeds both process-global streams, so
the output is independent of whatever global random state existed before the
run: two runs with the same seed, the same generation instant and the same
count produce identical customer and transaction tables. -/
theorem c2_amended (prior1 prior2 : GenState) (seed now n : ℕ) :
    datasetRun prior1 seed now n = datasetRun prior2 seed now n := rfl

/-- C2 counterexample: two independent runs with the same seed 42 and count 1
but started one day apart in wall-clock time produce customer tables that
already differ in member_since, because every timestamp is anchored at
datetime.now() of the run, which the seed does not control. -/
theorem c2_counterexample :
    (datasetRun (initState 0) 42 10000000 1).1.map (fun r => r.member_since) ≠
    (datasetRun (initState 0) 42 10001440 1).1.map (fun r => r.member_since) := by
  decide
